import Mathlib

/-!
Verification of the Meat-World-Project dashboard core
(src/project-code.py) against its specification.

The script loads four tabular datasets, filters them by year and by a
fixed country-of-interest list, resolves country coordinates through a
geocoder, aggregates with a group-by-sum, and prepares top-10 selections
for the histogram and obesity views.  We embed the dataframe pipeline
shallowly: a dataframe is a list of row structures, the pandas
operations (filter, isin, merge how=left, to_numeric errors=coerce,
dropna, groupby-sum, sort_values, nlargest, head) become list functions,
and the external geocoder is an explicit function parameter.
-/

namespace MeatWorld

/-- A cell of a raw dataframe column: a parsed number, an unparsed
string, or a missing value (NaN). -/
inductive Cell where
  | num (q : ℚ)
  | str (s : String)
  | na
deriving DecidableEq, Repr

/-- A row of the meat-production or agricultural-land dataset after
loading: a Country, a Year, and the value column (Meat_Production or
Agricultural_Area), still uncoerced. -/
structure Row where
  country : String
  year : Int
  value : Cell
deriving DecidableEq, Repr

/-- A coordinate row produced by get_country_coordinates:
(Country, Latitude, Longitude), with None for a failed lookup. -/
structure CoordRow where
  country : String
  latitude : Option ℚ
  longitude : Option ℚ
deriving DecidableEq, Repr

/- ### Numeric coercion (pd.to_numeric errors=coerce), lines 111-115 -/

/-- Numeric value of a digit list, most significant first. -/
def digitsVal (l : List Char) : Nat :=
  l.foldl (fun n c => 10 * n + (c.toNat - 48)) 0

/-- Leading and trailing spaces removed from a character list. -/
def trimChars (l : List Char) : List Char :=
  ((l.dropWhile (fun c => c == ' ')).reverse.dropWhile (fun c => c == ' ')).reverse

/-- Parse an unsigned decimal literal: digits, optionally followed by a
point and further digits; at least one digit in total. -/
def parseUnsigned (l : List Char) : Option ℚ :=
  let intPart := l.takeWhile Char.isDigit
  let rest := l.dropWhile Char.isDigit
  match rest with
  | [] => if intPart.isEmpty then none else some (digitsVal intPart : ℚ)
  | '.' :: frac =>
      if frac.all Char.isDigit && !(intPart.isEmpty && frac.isEmpty) then
        some ((digitsVal intPart : ℚ) + (digitsVal frac : ℚ) / (10 : ℚ) ^ frac.length)
      else none
  | _ => none

/-- Parse a decimal string with optional sign and surrounding spaces;
none when the string is not numeric. -/
def parseNumeric (s : String) : Option ℚ :=
  match trimChars s.toList with
  | '-' :: rest => (parseUnsigned rest).map (fun q => -q)
  | '+' :: rest => parseUnsigned rest
  | l => parseUnsigned l

/-- Embedding of pd.to_numeric with errors=coerce on one cell: numbers
pass through, strings are parsed or become missing, missing stays
missing.  The function is total: no input raises. -/
def toNumericCell (c : Cell) : Option ℚ :=
  match c with
  | Cell.num q => some q
  | Cell.str s => parseNumeric s
  | Cell.na => none

/- ### Year/country filtering (lines 103-105) -/

/-- Embedding of lines 104-105: keep the rows of the selected year, then
the rows whose Country is in the country-of-interest list. -/
def filtered_data (data : List Row) (year : Int) (sel : List String) : List Row :=
  (data.filter (fun r => r.year == year)).filter (fun r => sel.contains r.country)

/- ### Coordinate resolver (lines 48-58) -/

/-- Embedding of get_country_coordinates: the geocoder is a function
from a country name to an optional (latitude, longitude) pair; a failed
lookup yields a row with both coordinates missing. -/
def get_country_coordinates (geocode : String → Option (ℚ × ℚ))
    (country_list : List String) : List CoordRow :=
  country_list.map (fun c =>
    match geocode c with
    | some p => ⟨c, some p.1, some p.2⟩
    | none => ⟨c, none, none⟩)

/- ### Group-by-sum aggregation (lines 168 and 184) -/

/-- A row of the line-chart table after numeric coercion: Year, Country
and the coerced value column (none models NaN). -/
structure NRow where
  year : Int
  country : String
  value : Option ℚ
deriving DecidableEq, Repr

/-- A group-by key: the (Year, Country) pair. -/
abbrev GKey := Int × String

/-- Group-by key of a row. -/
def nkey (r : NRow) : GKey := (r.year, r.country)

/-- The order in which pandas groupby sorts the (Year, Country) keys:
by Year, ties broken by Country. -/
def keyLE (a b : GKey) : Prop := a.1 < b.1 ∨ (a.1 = b.1 ∧ a.2 ≤ b.2)

instance : DecidableRel keyLE := fun a b => by
  unfold keyLE
  infer_instance

instance : IsTotal GKey keyLE := ⟨by
  intro a b
  rcases lt_trichotomy a.1 b.1 with h | h | h
  · exact Or.inl (Or.inl h)
  · rcases le_total a.2 b.2 with h2 | h2
    · exact Or.inl (Or.inr ⟨h, h2⟩)
    · exact Or.inr (Or.inr ⟨h.symm, h2⟩)
  · exact Or.inr (Or.inl h)⟩

instance : IsTrans GKey keyLE := ⟨by
  intro a b c hab hbc
  rcases hab with h1 | ⟨e1, l1⟩ <;> rcases hbc with h2 | ⟨e2, l2⟩
  · exact Or.inl (h1.trans h2)
  · exact Or.inl (e2 ▸ h1)
  · exact Or.inl (e1 ▸ h2)
  · exact Or.inr ⟨e1.trans e2, l1.trans l2⟩⟩

/-- The distinct (Year, Country) keys of a table, in the sorted order
pandas groupby emits them. -/
def groupKeys (l : List NRow) : List GKey :=
  List.insertionSort keyLE ((l.map nkey).dedup)

/-- Sum of the value column over a list of rows; missing values count
as zero, matching the skipna sum of pandas (an all-missing group sums
to 0). -/
def sumVals (l : List NRow) : ℚ := (l.map (fun r => r.value.getD 0)).sum

/-- The output row of the aggregation for one key. -/
def groupRow (l : List NRow) (k : GKey) : NRow :=
  ⟨k.1, k.2, some (sumVals (l.filter (fun r => decide (nkey r = k))))⟩

/-- Embedding of groupby(["Year", "Country"]).sum().reset_index(): one
row per distinct key, keys sorted, value column summed per key. -/
def group_sum (l : List NRow) : List NRow :=
  (groupKeys l).map (groupRow l)

/- ### Obesity view (lines 212-238) -/

/-- A row of the obesity dataset after loading: Country, Year and the
renamed Obesity prevalence column. -/
structure ORow where
  country : String
  year : Int
  obesity : ℚ
deriving DecidableEq, Repr

/-- The fixed continent/aggregate exclusion list of line 225. -/
def continents : List String :=
  ["World", "Asia", "Africa", "Europe", "North America", "South America",
    "Oceania", "Antarctica", "Asia (excl. China and India)",
    "Europe (excl. Russia)", "South America (excl. Brazil)"]

/-- Embedding of data["Year"].max() on line 222. -/
def recent_year (data : List ORow) : Int :=
  ((data.map (fun r => r.year)).max?).getD 0

/-- Embedding of lines 223 and 227: rows of the most recent year whose
Country is not on the exclusion list. -/
def recent_data (data : List ORow) : List ORow :=
  (data.filter (fun r => r.year == recent_year data)).filter
    (fun r => !(continents.contains r.country))

/-- Descending order on the Obesity column, the sort key of line 229. -/
def obGE (a b : ORow) : Prop := b.obesity ≤ a.obesity

instance : DecidableRel obGE := fun a b => by
  unfold obGE
  infer_instance

instance : IsTotal ORow obGE := ⟨fun a b => le_total b.obesity a.obesity⟩

instance : IsTrans ORow obGE := ⟨fun _ _ _ h1 h2 => le_trans h2 h1⟩

/-- Embedding of line 229: sort the eligible recent rows descending by
Obesity, take the first 10, and read off the Country column. -/
def top_10_countries (data : List ORow) : List String :=
  ((List.insertionSort obGE (recent_data data)).take 10).map (fun r => r.country)

/-- Embedding of line 230: all rows of the dataset whose Country is one
of the ten selected countries, every year included. -/
def filtered_df (data : List ORow) : List ORow :=
  data.filter (fun r => (top_10_countries data).contains r.country)

/- ### Meat Consumption view (lines 198-210) -/

/-- A row of the consumption dataset: Country and the
Kilograms/capita column. -/
structure CRow where
  country : String
  kg : ℚ
deriving DecidableEq, Repr

/-- Descending order on the Kilograms/capita column. -/
def kgGE (a b : CRow) : Prop := b.kg ≤ a.kg

instance : DecidableRel kgGE := fun a b => by
  unfold kgGE
  infer_instance

instance : IsTotal CRow kgGE := ⟨fun a b => le_total b.kg a.kg⟩

instance : IsTrans CRow kgGE := ⟨fun _ _ _ h1 h2 => le_trans h2 h1⟩

/-- Embedding of DataFrame.nlargest(n, column) with keep=first: a
stable descending sort on the column followed by taking n rows. -/
def nlargest (n : Nat) (data : List CRow) : List CRow :=
  (List.insertionSort kgGE data).take n

/-- Embedding of line 205: top_5 = data.nlargest(10, Kilograms/capita);
despite its name the variable holds ten rows. -/
def top_5 (data : List CRow) : List CRow := nlargest 10 data

/- ### Map input: merge with coordinates, coerce, dropna (lines 107-118) -/

/-- A row of the merged map table: the dataset row joined with the
resolved coordinates, value column coerced. -/
structure MapRow where
  country : String
  year : Int
  value : Option ℚ
  latitude : Option ℚ
  longitude : Option ℚ
deriving DecidableEq, Repr

/-- Embedding of pd.merge(filtered_data, coordinates, on=Country,
how=left): each left row is paired with every coordinate row of the
same Country, or with missing coordinates when none matches. -/
def mergeCoords (left : List Row) (coords : List CoordRow) :
    List (Row × Option ℚ × Option ℚ) :=
  left.flatMap (fun r =>
    if (coords.filter (fun c => c.country == r.country)).isEmpty then
      [(r, none, none)]
    else
      (coords.filter (fun c => c.country == r.country)).map
        (fun c => (r, c.latitude, c.longitude)))

/-- Embedding of the full map-input pipeline, lines 103-118: filter by
year and country set, left-merge the resolved coordinates, coerce the
value column, drop rows with missing Latitude or Longitude. -/
def map_input (geocode : String → Option (ℚ × ℚ)) (data : List Row)
    (year : Int) (sel : List String) : List MapRow :=
  (((mergeCoords (filtered_data data year sel)
      (get_country_coordinates geocode sel)).map (fun t =>
    (⟨t.1.country, t.1.year, toNumericCell t.1.value, t.2.1, t.2.2⟩ : MapRow))).filter
    (fun m => m.latitude.isSome && m.longitude.isSome))

/- ### Line-chart inputs (lines 166-168 and 182-184) -/

/-- Embedding of lines 166-167: country-filtered rows of the full meat
dataset, value column coerced, all years kept. -/
def meat_line_rows (data : List Row) (sel : List String) : List NRow :=
  (data.filter (fun r => sel.contains r.country)).map
    (fun r => ⟨r.year, r.country, toNumericCell r.value⟩)

/-- Embedding of line 168: the aggregated meat line-chart table. -/
def line_graph_data_meat (data : List Row) (sel : List String) : List NRow :=
  group_sum (meat_line_rows data sel)

/-- Embedding of lines 182-183: rows of the agricultural dataset with
Year at least 1600 and Country in the selection, value coerced. -/
def ag_line_rows (data : List Row) (sel : List String) : List NRow :=
  (data.filter (fun r => decide (1600 ≤ r.year) && sel.contains r.country)).map
    (fun r => ⟨r.year, r.country, toNumericCell r.value⟩)

/-- Embedding of line 184: the aggregated agricultural line-chart
table. -/
def line_graph_data_ag (data : List Row) (sel : List String) : List NRow :=
  group_sum (ag_line_rows data sel)

/-- The two tables the Meat Production branch can hand to a renderer:
the map input and the line-chart input. -/
def meat_view (geocode : String → Option (ℚ × ℚ)) (data : List Row)
    (year : Int) (sel : List String) : List MapRow × List NRow :=
  (map_input geocode data year sel, line_graph_data_meat data sel)

/-- The two tables the Agricultural Land Use branch can hand to a
renderer. -/
def ag_view (geocode : String → Option (ℚ × ℚ)) (data : List Row)
    (year : Int) (sel : List String) : List MapRow × List NRow :=
  (map_input geocode data year sel, line_graph_data_ag data sel)

/- ### Loader column renaming (lines 9-45) -/

/-- Embedding of df.rename(columns=mapping): each column name is sent
through the mapping, unmapped names stay unchanged. -/
def rename_columns (cols : List String) (mapping : List (String × String)) :
    List String :=
  cols.map (fun c => (mapping.lookup c).getD c)

/-- The raw name of the meat-production value column (line 15). -/
def meat_production_raw : String :=
  "Meat, total | 00001765 || Production | 005510 || tonnes"

/-- The raw name of the agricultural-area value column (line 26). -/
def agricultural_area_raw : String := "Land use: Agriculture"

/-- The raw name of the obesity value column (line 44). -/
def obesity_value_raw : String :=
  "Prevalence of obesity among adults, BMI >= 30 (crude estimate) (%) - Sex: both sexes - Age group: 18+  years"

/-- The rename mapping of load_meat_data. -/
def meat_rename : List (String × String) :=
  [("Entity", "Country"), (meat_production_raw, "Meat_Production")]

/-- The rename mapping of load_agriculture_data. -/
def agriculture_rename : List (String × String) :=
  [("Entity", "Country"), (agricultural_area_raw, "Agricultural_Area")]

/-- The rename mapping of load_obesity_data (its two renames compose to
one mapping on disjoint keys). -/
def obesity_rename : List (String × String) :=
  [("Entity", "Country"), (obesity_value_raw, "Obesity")]

/-- Column names returned by load_meat_data for a given raw header. -/
def load_meat_columns (raw : List String) : List String :=
  rename_columns raw meat_rename

/-- Column names returned by load_agriculture_data. -/
def load_agriculture_columns (raw : List String) : List String :=
  rename_columns raw agriculture_rename

/-- Column names returned by load_obesity_data. -/
def load_obesity_columns (raw : List String) : List String :=
  rename_columns raw obesity_rename

/-- Embedding of str.replace of the quote character by the empty
string: every quote character is removed. -/
def stripQuotes (s : String) : String :=
  String.mk (s.toList.filter (fun c => !(c == '"')))

/-- Embedding of str.strip: surrounding spaces removed. -/
def stripSpaces (s : String) : String := String.mk (trimChars s.toList)

/-- Column names returned by load_consumption_data (line 35): quote
characters removed and surrounding whitespace stripped on every
header. -/
def load_consumption_columns (raw : List String) : List String :=
  raw.map (fun c => stripSpaces (stripQuotes c))

/-- Modelled from the spec: the raw header of the meat-production CSV;
the data file belongs to the repository but is not under src, so its
header is taken from the raw column names the loader renames. -/
def meat_raw_columns : List String :=
  ["Entity", "Code", "Year", meat_production_raw]

/-- Modelled from the spec: the raw header of the agricultural-area
CSV, not under src. -/
def agriculture_raw_columns : List String :=
  ["Entity", "Code", "Year", agricultural_area_raw]

/-- Modelled from the spec: the raw header of the obesity CSV, not
under src. -/
def obesity_raw_columns : List String :=
  ["Entity", "Code", "Year", obesity_value_raw]

/-- Modelled from the spec: the raw header of the consumption export
CSV, not under src; its column names carry quote characters that the
loader strips. -/
def consumption_raw_columns : List String :=
  ["\"Country\"", "\"Kilograms/capita\""]

/- ### Helper lemmas on the aggregation -/

theorem nkey_groupRow (l : List NRow) (k : GKey) : nkey (groupRow l k) = k := by
  cases k
  rfl

theorem group_sum_map_nkey (l : List NRow) : (group_sum l).map nkey = groupKeys l := by
  rw [group_sum, List.map_map]
  exact List.map_congr_left (fun k _ => nkey_groupRow l k) |>.trans (List.map_id _)

theorem groupKeys_nodup (l : List NRow) : (groupKeys l).Nodup :=
  (List.perm_insertionSort keyLE _).nodup_iff.mpr (List.nodup_dedup _)

theorem groupKeys_sorted (l : List NRow) : List.Sorted keyLE (groupKeys l) :=
  List.sorted_insertionSort keyLE _

theorem groupKeys_group_sum (l : List NRow) : groupKeys (group_sum l) = groupKeys l := by
  rw [groupKeys, group_sum_map_nkey, List.dedup_eq_self.mpr (groupKeys_nodup l)]
  exact (groupKeys_sorted l).insertionSort_eq

theorem filter_nkey_map_of_not_mem (ks : List GKey) (f : GKey → NRow)
    (hf : ∀ k, nkey (f k) = k) (k : GKey) (hk : k ∉ ks) :
    (ks.map f).filter (fun r => decide (nkey r = k)) = [] := by
  induction ks with
  | nil => rfl
  | cons a t ih =>
    simp only [List.map_cons, List.filter_cons]
    have ha : ¬ (nkey (f a) = k) := by
      rw [hf]
      exact fun h => hk (h ▸ List.mem_cons_self a t)
    rw [decide_eq_false ha]
    exact ih (fun h => hk (List.mem_cons_of_mem a h))

theorem filter_nkey_map_of_mem (ks : List GKey) (f : GKey → NRow)
    (hf : ∀ k, nkey (f k) = k) (hn : ks.Nodup) (k : GKey) (hk : k ∈ ks) :
    (ks.map f).filter (fun r => decide (nkey r = k)) = [f k] := by
  induction ks with
  | nil => cases hk
  | cons a t ih =>
    simp only [List.map_cons, List.filter_cons]
    rcases List.mem_cons.mp hk with h | h
    · subst h
      rw [decide_eq_true (by rw [hf]),
        filter_nkey_map_of_not_mem t f hf k (List.nodup_cons.mp hn).1]
      rfl
    · have ha : ¬ (nkey (f a) = k) := by
        rw [hf]
        exact fun he => (List.nodup_cons.mp hn).1 (he ▸ h)
      rw [decide_eq_false ha]
      exact ih (List.nodup_cons.mp hn).2 h

/-- C6: the group-by-(Year, Country)-and-sum aggregation of the line
charts is idempotent: applied to its own output it returns that output
unchanged, for every input table. -/
theorem group_sum_idempotent (l : List NRow) :
    group_sum (group_sum l) = group_sum l := by
  conv_lhs => rw [group_sum]
  rw [groupKeys_group_sum]
  conv_rhs => rw [group_sum]
  apply List.map_congr_left
  intro k hk
  have hfil : (group_sum l).filter (fun r => decide (nkey r = k)) = [groupRow l k] := by
    conv_lhs => rw [group_sum]
    exact filter_nkey_map_of_mem (groupKeys l) (groupRow l) (nkey_groupRow l)
      (groupKeys_nodup l) k hk
  show groupRow (group_sum l) k = groupRow l k
  rw [groupRow, hfil]
  simp [sumVals, groupRow]

/- ### Theorems for C1, C2, C5 -/

/-- C1: every row of the filtered output has the selected Year and a
Country belonging to the country-of-interest set; no row violates
either predicate. -/
theorem filtered_data_rows_match (data : List Row) (year : Int) (sel : List String) :
    ∀ r ∈ filtered_data data year sel, r.year = year ∧ r.country ∈ sel := by
  intro r hr
  simp only [filtered_data, List.mem_filter, beq_iff_eq] at hr
  refine ⟨hr.1.2, ?_⟩
  have h2 := hr.2
  simp at h2
  exact h2

/-- Witness for C1 at a concrete dataset, year and country set. -/
theorem filtered_data_rows_match_witness :
    (⟨"Brazil", 2000, Cell.num 7⟩ : Row).year = 2000 ∧
      (⟨"Brazil", 2000, Cell.num 7⟩ : Row).country ∈ ["Brazil", "China"] :=
  filtered_data_rows_match
    [⟨"Brazil", 2000, Cell.num 7⟩, ⟨"Brazil", 1990, Cell.num 5⟩, ⟨"Peru", 2000, Cell.na⟩]
    2000 ["Brazil", "China"] ⟨"Brazil", 2000, Cell.num 7⟩ (by decide)

/-- C2: the coordinate resolver returns exactly one row per input name
in input order (the Country column of the output reads back the input
list); a row of a failed lookup has both coordinates missing, and no row
has exactly one missing coordinate. -/
theorem get_country_coordinates_spec (geocode : String → Option (ℚ × ℚ))
    (cl : List String) :
    ((get_country_coordinates geocode cl).map (fun r => r.country) = cl) ∧
      (∀ r ∈ get_country_coordinates geocode cl,
        (r.latitude = none ↔ r.longitude = none)) ∧
      (∀ r ∈ get_country_coordinates geocode cl,
        geocode r.country = none → r.latitude = none ∧ r.longitude = none) := by
  refine ⟨?_, ?_, ?_⟩
  · induction cl with
    | nil => rfl
    | cons c t ih =>
      simp only [get_country_coordinates, List.map_cons] at ih ⊢
      cases h : geocode c <;> simp [ih]
  · intro r hr
    simp only [get_country_coordinates, List.mem_map] at hr
    obtain ⟨c, _, hc⟩ := hr
    cases h : geocode c <;> rw [h] at hc <;> subst hc <;> simp
  · intro r hr hg
    simp only [get_country_coordinates, List.mem_map] at hr
    obtain ⟨c, _, hc⟩ := hr
    cases h : geocode c <;> rw [h] at hc <;> subst hc
    · exact ⟨rfl, rfl⟩
    · simp at hg
      rw [hg] at h
      cases h

/-- Witness for C2 at a concrete geocoder and country list. -/
theorem get_country_coordinates_spec_witness :
    ((⟨"Atlantis", none, none⟩ : CoordRow) ∈
        get_country_coordinates (fun _ => none) ["Atlantis"]) ∧
      ((fun _ : String => (none : Option (ℚ × ℚ))) "Atlantis" = none) ∧
      ((⟨"Atlantis", none, none⟩ : CoordRow).latitude = none ∧
        (⟨"Atlantis", none, none⟩ : CoordRow).longitude = none) :=
  ⟨by simp [get_country_coordinates], rfl,
    (get_country_coordinates_spec (fun _ => none) ["Atlantis"]).2.2
      ⟨"Atlantis", none, none⟩ (by simp [get_country_coordinates]) rfl⟩

/-- C5: numeric coercion sends a cell holding a non-numeric string to
the missing value none (in particular not to some 0), leaves a parseable
string at its parsed value, and leaves numeric cells unchanged; the
function is total so no input raises an error. -/
theorem toNumericCell_spec :
    (∀ s : String, parseNumeric s = none →
        toNumericCell (Cell.str s) = none ∧ toNumericCell (Cell.str s) ≠ some 0) ∧
      (∀ s : String, ∀ q : ℚ, parseNumeric s = some q →
        toNumericCell (Cell.str s) = some q) ∧
      (∀ q : ℚ, toNumericCell (Cell.num q) = some q) := by
  refine ⟨?_, ?_, ?_⟩
  · intro s hs
    refine ⟨hs, ?_⟩
    rw [show toNumericCell (Cell.str s) = parseNumeric s from rfl, hs]
    exact fun h => Option.noConfusion h
  · intro s q hs
    rw [show toNumericCell (Cell.str s) = parseNumeric s from rfl, hs]
  · intro q
    rfl

/-- Witness for C5 at a concrete unparseable string and a concrete
parseable one. -/
theorem toNumericCell_spec_witness :
    (toNumericCell (Cell.str "abc") = none ∧ toNumericCell (Cell.str "abc") ≠ some 0) ∧
      toNumericCell (Cell.str "12.5") = some (25 / 2) :=
  ⟨toNumericCell_spec.1 "abc" (by decide),
    toNumericCell_spec.2.1 "12.5" (25 / 2) (by
      simp +decide [parseNumeric, trimChars, parseUnsigned, digitsVal]
      norm_num)⟩

/-- C3: after the continent exclusion and the restriction to the most
recent year, the selected country list reads off a pack of rows that is
a descending-by-Obesity sorted selection of min 10 (number of eligible
rows) rows, and every selected row has Obesity at least that of every
eligible row left out. -/
theorem top_10_countries_spec (data : List ORow) :
    ∃ rows rest : List ORow,
      top_10_countries data = rows.map (fun r => r.country) ∧
      rows.length = min 10 (recent_data data).length ∧
      List.Sorted obGE rows ∧
      (rows ++ rest).Perm (recent_data data) ∧
      ∀ r ∈ rows, ∀ s ∈ rest, s.obesity ≤ r.obesity := by
  refine ⟨(List.insertionSort obGE (recent_data data)).take 10,
    (List.insertionSort obGE (recent_data data)).drop 10, rfl, ?_, ?_, ?_, ?_⟩
  · rw [List.length_take, List.length_insertionSort]
  · exact List.Pairwise.sublist (List.take_sublist _ _)
      (List.sorted_insertionSort obGE _)
  · rw [List.take_append_drop]
    exact List.perm_insertionSort obGE _
  · have h := List.sorted_insertionSort obGE (recent_data data)
    rw [← List.take_append_drop 10 (List.insertionSort obGE (recent_data data))] at h
    exact fun r hr s hs => (List.pairwise_append.mp h).2.2 r hr s hs

/-- Witness for C3 at a concrete obesity dataset of three countries
and one continent row over two years. -/
theorem top_10_countries_spec_witness :
    (∃ rows rest : List ORow,
      top_10_countries
          [⟨"A", 2016, 30⟩, ⟨"B", 2016, 10⟩, ⟨"C", 2016, 20⟩,
            ⟨"World", 2016, 99⟩, ⟨"A", 1990, 4⟩] =
        rows.map (fun r => r.country) ∧
      rows.length = min 10 (recent_data
        [⟨"A", 2016, 30⟩, ⟨"B", 2016, 10⟩, ⟨"C", 2016, 20⟩,
          ⟨"World", 2016, 99⟩, ⟨"A", 1990, 4⟩]).length ∧
      List.Sorted obGE rows ∧
      (rows ++ rest).Perm (recent_data
        [⟨"A", 2016, 30⟩, ⟨"B", 2016, 10⟩, ⟨"C", 2016, 20⟩,
          ⟨"World", 2016, 99⟩, ⟨"A", 1990, 4⟩]) ∧
      ∀ r ∈ rows, ∀ s ∈ rest, s.obesity ≤ r.obesity) ∧
      top_10_countries
          [⟨"A", 2016, 30⟩, ⟨"B", 2016, 10⟩, ⟨"C", 2016, 20⟩,
            ⟨"World", 2016, 99⟩, ⟨"A", 1990, 4⟩] =
        ["A", "C", "B"] :=
  ⟨top_10_countries_spec
    [⟨"A", 2016, 30⟩, ⟨"B", 2016, 10⟩, ⟨"C", 2016, 20⟩,
      ⟨"World", 2016, 99⟩, ⟨"A", 1990, 4⟩], by decide⟩

/-- C4 counterexample: a consumption dataset in which the same country
appears twice with two large values; the histogram table returned by
top_5 then contains a duplicate Country, refuting the no-duplicates
clause of the claim for arbitrary input. -/
theorem top_5_duplicate_country :
    (top_5 [⟨"A", 50⟩, ⟨"A", 40⟩]).map (fun r => r.country) = ["A", "A"] ∧
      ¬ ((top_5 [(⟨"A", 50⟩ : CRow), ⟨"A", 40⟩]).map (fun r => r.country)).Nodup := by
  decide

/-- C4 (amended): the histogram table has at most 10 rows and is sorted
descending by Kilograms/capita for every input; its Country values are
distinct whenever the input dataset has no duplicate Country values. -/
theorem top_5_spec (data : List CRow) :
    (top_5 data).length ≤ 10 ∧ List.Sorted kgGE (top_5 data) ∧
      ((data.map (fun r => r.country)).Nodup →
        ((top_5 data).map (fun r => r.country)).Nodup) := by
  refine ⟨?_, ?_, ?_⟩
  · rw [top_5, nlargest, List.length_take]
    exact min_le_left _ _
  · exact List.Pairwise.sublist (List.take_sublist _ _)
      (List.sorted_insertionSort kgGE _)
  · intro hn
    have hs : List.Nodup ((List.insertionSort kgGE data).map (fun r => r.country)) :=
      (((List.perm_insertionSort kgGE data).map (fun r => r.country)).nodup_iff).mpr hn
    exact hs.sublist (List.Sublist.map _ (List.take_sublist _ _))

/-- Witness for C4 at a concrete duplicate-free dataset. -/
theorem top_5_spec_witness :
    (top_5 [⟨"A", 50⟩, ⟨"B", 40⟩]).length ≤ 10 ∧
      List.Sorted kgGE (top_5 [⟨"A", 50⟩, ⟨"B", 40⟩]) ∧
      ((top_5 [(⟨"A", 50⟩ : CRow), ⟨"B", 40⟩]).map (fun r => r.country)).Nodup :=
  ⟨(top_5_spec [⟨"A", 50⟩, ⟨"B", 40⟩]).1, (top_5_spec [⟨"A", 50⟩, ⟨"B", 40⟩]).2.1,
    (top_5_spec [⟨"A", 50⟩, ⟨"B", 40⟩]).2.2 (by decide)⟩

/-- C8 counterexample: an obesity dataset whose only country also has a
1970 record; that record belongs to the plotted table filtered_df even
though 1970 lies outside [1980, recent year], because line 230 filters
by Country only and range_x merely sets the axis display range. -/
theorem filtered_df_year_out_of_range :
    (⟨"A", 1970, 5⟩ : ORow) ∈ filtered_df [⟨"A", 1970, 5⟩, ⟨"A", 2016, 30⟩] ∧
      (1970 : Int) < 1980 ∧
      recent_year [(⟨"A", 1970, 5⟩ : ORow), ⟨"A", 2016, 30⟩] = 2016 := by
  decide

/-- C8 (amended): the plotted table of the Obesity view contains every
row of the dataset whose Country is among the 10 selected countries,
regardless of its Year; the [1980, recent year] span is only the chart
x-axis display range. -/
theorem filtered_df_mem (data : List ORow) (r : ORow) :
    r ∈ filtered_df data ↔ r ∈ data ∧ r.country ∈ top_10_countries data := by
  simp [filtered_df, List.mem_filter]

/- ### Helper lemmas on renaming and header cleaning -/

theorem mem_rename_of_mem (raw : List String) (m : List (String × String))
    (c : String) (h : c ∈ raw) : ((m.lookup c).getD c) ∈ rename_columns raw m :=
  List.mem_map_of_mem _ h

theorem not_mem_rename (raw : List String) (m : List (String × String)) (x : String)
    (hx : ∀ c, ((m.lookup c).getD c) ≠ x) : x ∉ rename_columns raw m := by
  rw [rename_columns]
  intro hmem
  obtain ⟨c, _, hc⟩ := List.mem_map.mp hmem
  exact hx c hc

theorem lookup_pair (c e1 n1 e2 n2 : String) :
    List.lookup c [(e1, n1), (e2, n2)] =
      if c = e1 then some n1 else if c = e2 then some n2 else none := by
  rw [List.lookup_cons, List.lookup_cons, List.lookup_nil]
  by_cases h1 : c = e1
  · rw [show (c == e1) = true from beq_iff_eq.mpr h1, if_pos h1]
  · rw [show (c == e1) = false from beq_eq_false_iff_ne.mpr h1, if_neg h1]
    by_cases h2 : c = e2
    · rw [show (c == e2) = true from beq_iff_eq.mpr h2, if_pos h2]
    · rw [show (c == e2) = false from beq_eq_false_iff_ne.mpr h2, if_neg h2]

theorem rename_pair_mem1 (raw : List String) (e1 n1 e2 n2 : String) (h : e1 ∈ raw) :
    n1 ∈ rename_columns raw [(e1, n1), (e2, n2)] := by
  have hm := mem_rename_of_mem raw [(e1, n1), (e2, n2)] e1 h
  rwa [lookup_pair, if_pos rfl, Option.getD_some] at hm

theorem rename_pair_mem2 (raw : List String) (e1 n1 e2 n2 : String)
    (hne : e2 ≠ e1) (h : e2 ∈ raw) :
    n2 ∈ rename_columns raw [(e1, n1), (e2, n2)] := by
  have hm := mem_rename_of_mem raw [(e1, n1), (e2, n2)] e2 h
  rwa [lookup_pair, if_neg hne, if_pos rfl, Option.getD_some] at hm

theorem rename_pair_raw_not_mem (raw : List String) (e1 n1 e2 n2 x : String)
    (hx : x = e1 ∨ x = e2) (hx1 : n1 ≠ x) (hx2 : n2 ≠ x) :
    x ∉ rename_columns raw [(e1, n1), (e2, n2)] := by
  apply not_mem_rename
  intro c
  rw [lookup_pair]
  by_cases hc1 : c = e1
  · rw [if_pos hc1, Option.getD_some]
    exact hx1
  · rw [if_neg hc1]
    by_cases hc2 : c = e2
    · rw [if_pos hc2, Option.getD_some]
      exact hx2
    · rw [if_neg hc2, Option.getD_none]
      rcases hx with h | h
      · exact fun he => hc1 (he.trans h)
      · exact fun he => hc2 (he.trans h)

theorem mem_trimChars {x : Char} {l : List Char} (h : x ∈ trimChars l) : x ∈ l := by
  rw [trimChars, List.mem_reverse] at h
  have h2 := (List.dropWhile_sublist _).subset h
  rw [List.mem_reverse] at h2
  exact (List.dropWhile_sublist _).subset h2

theorem clean_no_quote (s : String) (x : Char)
    (hx : x ∈ (stripSpaces (stripQuotes s)).toList) : x ≠ '"' := by
  have h2 : x ∈ (stripQuotes s).toList := mem_trimChars hx
  rw [stripQuotes] at h2
  have h3 := (List.mem_filter.mp h2).2
  simp at h3
  exact h3

theorem quote_not_mem_consumption (raw : List String) (x : String)
    (hq : '"' ∈ x.toList) : x ∉ load_consumption_columns raw := by
  intro hmem
  obtain ⟨c, _, hc⟩ := List.mem_map.mp hmem
  exact clean_no_quote c '"' (by rw [hc]; exact hq) rfl

/-- C7: for every raw header carrying the documented raw column names,
each loader's output includes the canonical names (Country and the
dataset value name) and no renamed column survives under its original
raw name; the consumption loader yields the cleaned names and no
quoted raw header survives. -/
theorem loader_columns_spec (rawM rawA rawO rawC : List String)
    (hM1 : "Entity" ∈ rawM) (hM2 : meat_production_raw ∈ rawM)
    (hA1 : "Entity" ∈ rawA) (hA2 : agricultural_area_raw ∈ rawA)
    (hO1 : "Entity" ∈ rawO) (hO2 : obesity_value_raw ∈ rawO)
    (hC1 : "\"Country\"" ∈ rawC) (hC2 : "\"Kilograms/capita\"" ∈ rawC) :
    ("Country" ∈ load_meat_columns rawM ∧
        "Meat_Production" ∈ load_meat_columns rawM ∧
        "Entity" ∉ load_meat_columns rawM ∧
        meat_production_raw ∉ load_meat_columns rawM) ∧
      ("Country" ∈ load_agriculture_columns rawA ∧
        "Agricultural_Area" ∈ load_agriculture_columns rawA ∧
        "Entity" ∉ load_agriculture_columns rawA ∧
        agricultural_area_raw ∉ load_agriculture_columns rawA) ∧
      ("Country" ∈ load_obesity_columns rawO ∧
        "Obesity" ∈ load_obesity_columns rawO ∧
        "Entity" ∉ load_obesity_columns rawO ∧
        obesity_value_raw ∉ load_obesity_columns rawO) ∧
      ("Country" ∈ load_consumption_columns rawC ∧
        "Kilograms/capita" ∈ load_consumption_columns rawC ∧
        "\"Country\"" ∉ load_consumption_columns rawC ∧
        "\"Kilograms/capita\"" ∉ load_consumption_columns rawC) := by
  refine ⟨⟨?_, ?_, ?_, ?_⟩, ⟨?_, ?_, ?_, ?_⟩, ⟨?_, ?_, ?_, ?_⟩, ⟨?_, ?_, ?_, ?_⟩⟩
  · exact rename_pair_mem1 rawM _ _ _ _ hM1
  · exact rename_pair_mem2 rawM "Entity" "Country" meat_production_raw
      "Meat_Production" (by decide) hM2
  · exact rename_pair_raw_not_mem rawM "Entity" "Country" meat_production_raw
      "Meat_Production" "Entity" (Or.inl rfl) (by decide) (by decide)
  · exact rename_pair_raw_not_mem rawM "Entity" "Country" meat_production_raw
      "Meat_Production" meat_production_raw (Or.inr rfl) (by decide) (by decide)
  · exact rename_pair_mem1 rawA _ _ _ _ hA1
  · exact rename_pair_mem2 rawA "Entity" "Country" agricultural_area_raw
      "Agricultural_Area" (by decide) hA2
  · exact rename_pair_raw_not_mem rawA "Entity" "Country" agricultural_area_raw
      "Agricultural_Area" "Entity" (Or.inl rfl) (by decide) (by decide)
  · exact rename_pair_raw_not_mem rawA "Entity" "Country" agricultural_area_raw
      "Agricultural_Area" agricultural_area_raw (Or.inr rfl) (by decide) (by decide)
  · exact rename_pair_mem1 rawO _ _ _ _ hO1
  · exact rename_pair_mem2 rawO "Entity" "Country" obesity_value_raw
      "Obesity" (by decide) hO2
  · exact rename_pair_raw_not_mem rawO "Entity" "Country" obesity_value_raw
      "Obesity" "Entity" (Or.inl rfl) (by decide) (by decide)
  · exact rename_pair_raw_not_mem rawO "Entity" "Country" obesity_value_raw
      "Obesity" obesity_value_raw (Or.inr rfl) (by decide) (by decide)
  · rw [load_consumption_columns]
    have hm := List.mem_map_of_mem (fun c => stripSpaces (stripQuotes c)) hC1
    have heq : (fun c => stripSpaces (stripQuotes c)) "\"Country\"" = "Country" := by
      decide
    rw [heq] at hm
    exact hm
  · rw [load_consumption_columns]
    have hm := List.mem_map_of_mem (fun c => stripSpaces (stripQuotes c)) hC2
    have heq : (fun c => stripSpaces (stripQuotes c)) "\"Kilograms/capita\"" =
        "Kilograms/capita" := by
      decide
    rw [heq] at hm
    exact hm
  · exact quote_not_mem_consumption rawC _ (by decide)
  · exact quote_not_mem_consumption rawC _ (by decide)

/-- Witness for C7 at the modelled raw headers of the four CSV files. -/
theorem loader_columns_spec_witness :
    ("Country" ∈ load_meat_columns meat_raw_columns ∧
        "Meat_Production" ∈ load_meat_columns meat_raw_columns ∧
        "Entity" ∉ load_meat_columns meat_raw_columns ∧
        meat_production_raw ∉ load_meat_columns meat_raw_columns) ∧
      ("Country" ∈ load_agriculture_columns agriculture_raw_columns ∧
        "Agricultural_Area" ∈ load_agriculture_columns agriculture_raw_columns ∧
        "Entity" ∉ load_agriculture_columns agriculture_raw_columns ∧
        agricultural_area_raw ∉ load_agriculture_columns agriculture_raw_columns) ∧
      ("Country" ∈ load_obesity_columns obesity_raw_columns ∧
        "Obesity" ∈ load_obesity_columns obesity_raw_columns ∧
        "Entity" ∉ load_obesity_columns obesity_raw_columns ∧
        obesity_value_raw ∉ load_obesity_columns obesity_raw_columns) ∧
      ("Country" ∈ load_consumption_columns consumption_raw_columns ∧
        "Kilograms/capita" ∈ load_consumption_columns consumption_raw_columns ∧
        "\"Country\"" ∉ load_consumption_columns consumption_raw_columns ∧
        "\"Kilograms/capita\"" ∉ load_consumption_columns consumption_raw_columns) :=
  loader_columns_spec meat_raw_columns agriculture_raw_columns obesity_raw_columns
    consumption_raw_columns (by decide) (by decide) (by decide) (by decide)
    (by decide) (by decide) (by decide) (by decide)

/- ### Helper lemmas on the map and line pipelines -/

theorem mem_filtered_data_year (data : List Row) (year : Int) (sel : List String)
    (r : Row) (h : r ∈ filtered_data data year sel) : r.year = year := by
  simp only [filtered_data, List.mem_filter, beq_iff_eq] at h
  exact h.1.2

theorem mem_mergeCoords_fst (left : List Row) (coords : List CoordRow)
    (t : Row × Option ℚ × Option ℚ) (ht : t ∈ mergeCoords left coords) :
    t.1 ∈ left := by
  rw [mergeCoords] at ht
  obtain ⟨r, hr, hfr⟩ := List.mem_flatMap.mp ht
  split at hfr
  · simp at hfr
    rw [hfr]
    exact hr
  · obtain ⟨c, _, hc⟩ := List.mem_map.mp hfr
    rw [← hc]
    exact hr

theorem ag_line_rows_year (data : List Row) (sel : List String) (r : NRow)
    (hr : r ∈ ag_line_rows data sel) : 1600 ≤ r.year := by
  rw [ag_line_rows] at hr
  obtain ⟨r0, hr0, hrr⟩ := List.mem_map.mp hr
  have hp := (List.mem_filter.mp hr0).2
  simp at hp
  rw [← hrr]
  exact hp.1

/-- C9: with the Agricultural Land Use dataset at year 1600, no row
with Year below 1600 reaches the map input (pre-merge filter, merged
and cleaned map table) and none reaches the line-chart input (filtered
rows and aggregated table). -/
theorem ag_view_year_floor (g : String → Option (ℚ × ℚ)) (data : List Row)
    (sel : List String) :
    (∀ r ∈ filtered_data data 1600 sel, ¬ r.year < 1600) ∧
      (∀ m ∈ map_input g data 1600 sel, ¬ m.year < 1600) ∧
      (∀ r ∈ ag_line_rows data sel, ¬ r.year < 1600) ∧
      (∀ r ∈ line_graph_data_ag data sel, ¬ r.year < 1600) := by
  refine ⟨?_, ?_, ?_, ?_⟩
  · intro r hr
    have := mem_filtered_data_year data 1600 sel r hr
    omega
  · intro m hm
    rw [map_input] at hm
    have hm2 := (List.mem_filter.mp hm).1
    obtain ⟨t, ht, hmt⟩ := List.mem_map.mp hm2
    have h1 := mem_mergeCoords_fst _ _ t ht
    have h2 := mem_filtered_data_year data 1600 sel t.1 h1
    rw [← hmt]
    show ¬ t.1.year < 1600
    omega
  · intro r hr
    have := ag_line_rows_year data sel r hr
    omega
  · intro r hr
    rw [line_graph_data_ag, group_sum] at hr
    obtain ⟨k, hk, hkr⟩ := List.mem_map.mp hr
    rw [groupKeys] at hk
    simp only [List.mem_insertionSort, List.mem_dedup] at hk
    obtain ⟨r0, hr0, hk0⟩ := List.mem_map.mp hk
    have h0 := ag_line_rows_year data sel r0 hr0
    rw [← hkr]
    show ¬ (groupRow (ag_line_rows data sel) k).year < 1600
    rw [groupRow]
    show ¬ k.1 < 1600
    rw [← hk0]
    show ¬ (nkey r0).1 < 1600
    rw [nkey]
    omega

/-- Witness for C9 at a concrete agricultural dataset that also holds a
pre-1600 record. -/
theorem ag_view_year_floor_witness :
    ((⟨"Brazil", 1600, Cell.num 3⟩ : Row) ∈
        filtered_data [⟨"Brazil", 1600, Cell.num 3⟩, ⟨"Brazil", 1500, Cell.num 2⟩]
          1600 ["Brazil"]) ∧
      ¬ ((⟨"Brazil", 1600, Cell.num 3⟩ : Row).year < 1600) ∧
      ((⟨1600, "Brazil", some 3⟩ : NRow) ∈
        ag_line_rows [⟨"Brazil", 1600, Cell.num 3⟩, ⟨"Brazil", 1500, Cell.num 2⟩]
          ["Brazil"]) ∧
      ¬ ((⟨1600, "Brazil", some 3⟩ : NRow).year < 1600) :=
  ⟨by decide,
    (ag_view_year_floor (fun _ => some (1, 2))
      [⟨"Brazil", 1600, Cell.num 3⟩, ⟨"Brazil", 1500, Cell.num 2⟩] ["Brazil"]).1
      ⟨"Brazil", 1600, Cell.num 3⟩ (by decide),
    by decide,
    (ag_view_year_floor (fun _ => some (1, 2))
      [⟨"Brazil", 1600, Cell.num 3⟩, ⟨"Brazil", 1500, Cell.num 2⟩] ["Brazil"]).2.2.1
      ⟨1600, "Brazil", some 3⟩ (by decide)⟩

/-- C10: the line-chart input of both branches is the same table
whatever the geocoder returns: dropping rows with missing coordinates
touches only the merged map table, and the line pipeline starts again
from the full loaded dataset. -/
theorem line_input_independent_of_geocoder (g1 g2 : String → Option (ℚ × ℚ))
    (data : List Row) (year : Int) (sel : List String) :
    (meat_view g1 data year sel).2 = (meat_view g2 data year sel).2 ∧
      (meat_view g1 data year sel).2 = line_graph_data_meat data sel ∧
      (ag_view g1 data year sel).2 = (ag_view g2 data year sel).2 ∧
      (ag_view g1 data year sel).2 = line_graph_data_ag data sel :=
  ⟨rfl, rfl, rfl, rfl⟩

end MeatWorld
